import Mathlib

/-!
Shallow embedding of the two CLI programs of this repository:
`main.py` (student-record CRUD over tables `alumnos`, `cursos`,
`operaciones_log`) and `inventory.py` (inventory/sales tracking over
tables `productos`, `ventas`, with analytics queries).

Conventions of the embedding:
- a table is a `List` of row records; `SERIAL` id generation is an
  explicit `next…Id` counter in the database state;
- monetary `DECIMAL(10,2)` values are integers in cents;
- `TIMESTAMP`/`DATE` values are natural numbers `yyyymmdd` (the sample
  data only carries dates, and lexicographic date order equals numeric
  order in this encoding);
- each handler opens a connection, runs its statements inside one
  transaction and commits at the end; an exception raised by the driver
  is modelled by a boolean oracle `fail` (connectivity failure,
  constraint violation, malformed input).  When it fires, the handler
  reaches its `except` branch: the transaction is never committed, so
  the committed state is returned unchanged together with the error
  message;
- console output is modelled as the list of the decision-relevant
  printed lines (the decorative SQL echo of `print_sql_operation` is
  elided).
-/

/-- A row of table `alumnos` (main.py, `create_tables`). -/
structure Alumno where
  id : Nat
  nombre : String
  email : String
  carrera : String
  deriving DecidableEq, Repr

/-- A row of table `cursos` (main.py, `create_tables`). -/
structure Curso where
  id : Nat
  nombre : String
  profesor : String
  creditos : Nat
  deriving DecidableEq, Repr

/-- A row of table `operaciones_log` (main.py, `create_tables`). -/
structure LogEntry where
  operacion : String
  descripcion : String
  tabla : String
  detalles : Option String
  deriving DecidableEq, Repr

/-- A row of table `productos` (inventory.py); `precio` in cents. -/
structure Producto where
  id : Nat
  nombre : String
  precio : Nat
  stock : Int
  deriving DecidableEq, Repr

/-- A row of table `ventas` (inventory.py); `fecha_venta` as `yyyymmdd`. -/
structure Venta where
  id : Nat
  producto_id : Nat
  cantidad : Nat
  fecha_venta : Nat
  deriving DecidableEq, Repr

/-- Committed database state of main.py. -/
structure SchoolDB where
  alumnos : List Alumno
  cursos : List Curso
  operaciones_log : List LogEntry
  nextAlumnoId : Nat
  deriving DecidableEq, Repr

/-- Committed database state of inventory.py. -/
structure InvDB where
  productos : List Producto
  ventas : List Venta
  nextProductoId : Nat
  nextVentaId : Nat
  deriving DecidableEq, Repr

/-- An open connection: the committed state it was opened on, plus the
pending state of its current (implicit) transaction.  `conn.commit()`
publishes the pending state; abandoning the connection without commit
(what the except-branches of the handlers do) discards it. -/
structure Txn (σ : Type) where
  committed : σ
  pending : σ
  deriving Repr

/-- Functions `get_connection` / `get_inventory_connection`: open a connection
on the committed state. -/
def beginTxn {σ : Type} (s : σ) : Txn σ := ⟨s, s⟩

/-- Execution (`cursor.execute`) of a data-modifying statement: applied to the
pending state only. -/
def execOn {σ : Type} (t : Txn σ) (f : σ → σ) : Txn σ :=
  ⟨t.committed, f t.pending⟩

/-- Commit (`conn.commit`): the pending state becomes committed. -/
def commitTxn {σ : Type} (t : Txn σ) : Txn σ :=
  ⟨t.pending, t.pending⟩

/-- Leaving the handler without commit (exception path): only the
committed state survives. -/
def abandon {σ : Type} (t : Txn σ) : σ := t.committed

/-! ### main.py handlers

Each handler takes the committed state, the failure oracle of its own
statement, and (where it calls `log_operation`) the failure oracle of
the audit-log insert, which runs on its own fresh connection. -/

/-- Function `log_operation` of main.py: one
INSERT into `operaciones_log` on a fresh connection, committed; any
exception is caught inside the function, which then only prints a
warning — it never raises to its caller. -/
def log_operation (db : SchoolDB) (logFails : Bool)
    (operacion descripcion : String) (detalles : Option String) :
    SchoolDB × List String :=
  if logFails then (db, ["[LOG - ERROR]"])
  else
    (let t := beginTxn db
     let t := execOn t (fun s =>
       { s with operaciones_log :=
           s.operaciones_log ++ [⟨operacion, descripcion, "alumnos", detalles⟩] })
     (commitTxn t).committed, [])

/-- Handler `insert_data` of main.py: one parameterized INSERT into `alumnos`,
commit, then audit log on a fresh connection and the success message;
on exception, no commit and the error message. -/
def insert_data (db : SchoolDB) (fail logFails : Bool)
    (nombre email carrera : String) : SchoolDB × List String :=
  let t := beginTxn db
  if fail then (abandon t, ["[INSERT - ERROR]"])
  else
    let t := execOn t (fun s =>
      { s with
          alumnos := s.alumnos ++ [⟨s.nextAlumnoId, nombre, email, carrera⟩]
          nextAlumnoId := s.nextAlumnoId + 1 })
    let t := commitTxn t
    let r := log_operation t.committed logFails "INSERT"
      ("Nuevo alumno registrado: " ++ nombre)
      (some ("nombre=" ++ nombre ++ ", email=" ++ email ++ ", carrera=" ++ carrera))
    (r.1, r.2 ++ ["[INSERT] Registro insertado con éxito."])

/-- Handler `fetch_data` of main.py: one SELECT over `alumnos` (reads the
committed state), then audit log on a fresh connection and the row
printout; on exception, the error message. -/
def fetch_data (db : SchoolDB) (fail logFails : Bool) : SchoolDB × List String :=
  let t := beginTxn db
  if fail then (abandon t, ["[READ - ERROR]"])
  else
    let rows := t.pending.alumnos
    let r := log_operation t.committed logFails "SELECT"
      "Consulta de todos los registros" (some "total_registros")
    (r.1, r.2 ++
      (if rows.isEmpty then ["[READ] No hay registros en la tabla."]
       else ["[READ] Registros en la tabla alumnos"]))

/-- Handler `update_data` of main.py: one parameterized
`UPDATE alumnos SET nombre = %s WHERE id = %s`, commit, then a
row-count check: a positive count logs and prints success, a zero count
prints the soft not-found message and does not log; on exception, no
commit and the error message. -/
def update_data (db : SchoolDB) (fail logFails : Bool)
    (alumno_id : Nat) (nuevo_nombre : String) : SchoolDB × List String :=
  let t := beginTxn db
  if fail then (abandon t, ["[UPDATE - ERROR]"])
  else
    let t := execOn t (fun s =>
      { s with alumnos := s.alumnos.map (fun a =>
          if a.id = alumno_id then { a with nombre := nuevo_nombre } else a) })
    let rowcount := db.alumnos.countP (fun a => a.id = alumno_id)
    let t := commitTxn t
    if rowcount > 0 then
      let r := log_operation t.committed logFails "UPDATE"
        "Actualización de nombre" (some nuevo_nombre)
      (r.1, r.2 ++ ["[UPDATE] Alumno actualizado."])
    else
      (t.committed, ["[UPDATE] No se encontró un alumno con ese ID."])

/-- Handler `delete_data` of main.py: one parameterized
`DELETE FROM alumnos WHERE id = %s`, commit, then the same row-count
check as `update_data`; on exception, no commit and the error
message. -/
def delete_data (db : SchoolDB) (fail logFails : Bool)
    (alumno_id : Nat) : SchoolDB × List String :=
  let t := beginTxn db
  if fail then (abandon t, ["[DELETE - ERROR]"])
  else
    let t := execOn t (fun s =>
      { s with alumnos := s.alumnos.filter (fun a => ¬ a.id = alumno_id) })
    let rowcount := db.alumnos.countP (fun a => a.id = alumno_id)
    let t := commitTxn t
    if rowcount > 0 then
      let r := log_operation t.committed logFails "DELETE"
        "Eliminación de alumno" none
      (r.1, r.2 ++ ["[DELETE] Alumno eliminado correctamente."])
    else
      (t.committed, ["[DELETE] No se encontró un alumno con ese ID."])

/-! ### inventory.py handlers -/

/-- Handler `insert_product` of inventory.py: one INSERT into `productos`
with RETURNING, commit; on exception, no commit and the error
message. -/
def insert_product (db : InvDB) (fail : Bool)
    (nombre : String) (precio : Nat) (stock : Int) : InvDB × List String :=
  let t := beginTxn db
  if fail then (abandon t, ["[INSERT - ERROR]"])
  else
    let t := execOn t (fun s =>
      { s with
          productos := s.productos ++ [⟨s.nextProductoId, nombre, precio, stock⟩]
          nextProductoId := s.nextProductoId + 1 })
    let t := commitTxn t
    (t.committed, ["[INSERT] Producto registrado."])

/-- Handler `insert_sale` of inventory.py: one INSERT into `ventas` with
RETURNING, commit.  The REFERENCES constraint on `producto_id` makes
the database reject the insert when no such product exists; that
exception is caught by the handler like any other, so no commit.  The
`fecha_venta` column takes its CURRENT_TIMESTAMP default `now`. -/
def insert_sale (db : InvDB) (fail : Bool)
    (producto_id cantidad now : Nat) : InvDB × List String :=
  let t := beginTxn db
  if fail then (abandon t, ["[INSERT - ERROR]"])
  else if db.productos.any (fun p => p.id = producto_id) then
    let t := execOn t (fun s =>
      { s with
          ventas := s.ventas ++ [⟨s.nextVentaId, producto_id, cantidad, now⟩]
          nextVentaId := s.nextVentaId + 1 })
    let t := commitTxn t
    (t.committed, ["[INSERT] Venta registrada."])
  else (abandon t, ["[INSERT - ERROR]"])

/-! ### Schema creation (`create_tables` of main.py,
`create_inventory_tables` of inventory.py)

A schema is the list of its table definitions; a column definition is
its name together with its SQL type-and-constraints text.
`CREATE TABLE IF NOT EXISTS` adds the definition only when no table of
that name exists yet. -/

/-- A column of a `CREATE TABLE` statement: name and SQL definition text. -/
structure ColumnDef where
  name : String
  sqlType : String
  deriving DecidableEq, Repr

/-- A table of the schema: name and columns. -/
structure TableDef where
  name : String
  columns : List ColumnDef
  deriving DecidableEq, Repr

/-- One `CREATE TABLE IF NOT EXISTS` statement: a no-op when a table of
the same name already exists, otherwise it appends the definition. -/
def createTableIfNotExists (schema : List TableDef) (t : TableDef) :
    List TableDef :=
  if schema.any (fun u => u.name = t.name) then schema else schema ++ [t]

/-- Table `cursos` as defined in `create_tables` of main.py. -/
def cursosTable : TableDef :=
  ⟨"cursos",
   [⟨"id", "SERIAL PRIMARY KEY"⟩,
    ⟨"nombre", "VARCHAR(100) NOT NULL"⟩,
    ⟨"profesor", "VARCHAR(100) NOT NULL"⟩,
    ⟨"creditos", "INTEGER DEFAULT 0"⟩,
    ⟨"activo", "BOOLEAN DEFAULT true"⟩,
    ⟨"created_at", "TIMESTAMP DEFAULT CURRENT_TIMESTAMP"⟩]⟩

/-- Table `alumnos` as defined in `create_tables` of main.py. -/
def alumnosTable : TableDef :=
  ⟨"alumnos",
   [⟨"id", "SERIAL PRIMARY KEY"⟩,
    ⟨"nombre", "VARCHAR(100) NOT NULL"⟩,
    ⟨"email", "VARCHAR(100) NOT NULL"⟩,
    ⟨"carrera", "VARCHAR(100)"⟩,
    ⟨"curso_id", "INTEGER REFERENCES cursos(id)"⟩,
    ⟨"activo", "BOOLEAN DEFAULT true"⟩,
    ⟨"created_at", "TIMESTAMP DEFAULT CURRENT_TIMESTAMP"⟩]⟩

/-- Table `operaciones_log` as defined in `create_tables` of main.py. -/
def operacionesLogTable : TableDef :=
  ⟨"operaciones_log",
   [⟨"id", "SERIAL PRIMARY KEY"⟩,
    ⟨"fecha_hora", "TIMESTAMP DEFAULT CURRENT_TIMESTAMP"⟩,
    ⟨"operacion", "VARCHAR(50) NOT NULL"⟩,
    ⟨"descripcion", "TEXT"⟩,
    ⟨"usuario", "TEXT DEFAULT CURRENT_USER"⟩,
    ⟨"tabla", "TEXT NOT NULL"⟩,
    ⟨"query_ejecutado", "TEXT"⟩,
    ⟨"detalles", "JSONB"⟩]⟩

/-- Table `productos` as defined in `create_inventory_tables`. -/
def productosTable : TableDef :=
  ⟨"productos",
   [⟨"id", "SERIAL PRIMARY KEY"⟩,
    ⟨"nombre", "VARCHAR(100) NOT NULL"⟩,
    ⟨"precio", "DECIMAL(10, 2) NOT NULL"⟩,
    ⟨"stock", "INTEGER DEFAULT 0"⟩]⟩

/-- Table `ventas` as defined in `create_inventory_tables`. -/
def ventasTable : TableDef :=
  ⟨"ventas",
   [⟨"id", "SERIAL PRIMARY KEY"⟩,
    ⟨"producto_id", "INTEGER REFERENCES productos(id)"⟩,
    ⟨"cantidad", "INTEGER NOT NULL"⟩,
    ⟨"fecha_venta", "TIMESTAMP DEFAULT CURRENT_TIMESTAMP"⟩]⟩

/-- Handler `create_tables` of main.py: the three
`CREATE TABLE IF NOT EXISTS` statements, in source order. -/
def create_tables (schema : List TableDef) : List TableDef :=
  createTableIfNotExists
    (createTableIfNotExists (createTableIfNotExists schema cursosTable)
      alumnosTable) operacionesLogTable

/-- Handler `create_inventory_tables` of inventory.py: the two
`CREATE TABLE IF NOT EXISTS` statements, in source order. -/
def create_inventory_tables (schema : List TableDef) : List TableDef :=
  createTableIfNotExists (createTableIfNotExists schema productosTable)
    ventasTable

/-- A table of the given name exists in the schema. -/
def hasTable (schema : List TableDef) (n : String) : Bool :=
  schema.any (fun u => u.name = n)

/-! ### Analytics queries (inventory.py) -/

/-- SQL `NULLIF(x, y)` on integers. -/
def nullif (x y : Int) : Option Int := if x = y then none else some x

/-- Postgres integer division (`/` on INTEGER operands truncates toward
zero). -/
def pgDiv (a b : Int) : Int := Int.tdiv a b

/-- The divisor of the stock projection:
`total_vendido / NULLIF(total_dias, 0)` — the estimated daily
sell-through (SQL division by NULL yields NULL). -/
def ventasPorDiaRate (total_vendido total_dias : Int) : Option Int :=
  (nullif total_dias 0).map (fun d => pgDiv total_vendido d)

/-- Expression `ROUND(stock / NULLIF(total_vendido / NULLIF(total_dias, 0), 0), 0)`
from the `proyeccion_productos` query of `generate_projections`:
days of stock remaining, NULL whenever either divisor is zero (ROUND to
0 decimals on an integer quotient is the identity). -/
def dias_restantes_stock (stock total_vendido total_dias : Int) : Option Int :=
  ((ventasPorDiaRate total_vendido total_dias).bind
    (fun r => nullif r 0)).map (fun d => pgDiv stock d)

/-- The CASE expression of the `stock_critico` query of
`generate_analytics`. -/
def estadoStock (stock : Int) : String :=
  if stock = 0 then "❌ Sin stock"
  else if stock < 5 then "⚠️ Crítico"
  else if stock < 10 then "📊 Bajo"
  else "✅ Normal"

/-- The ordering relation of `ORDER BY stock ASC`. -/
def stockLe (a b : Producto) : Prop := a.stock ≤ b.stock

instance : DecidableRel stockLe := fun a b =>
  inferInstanceAs (Decidable (a.stock ≤ b.stock))

instance : IsTotal Producto stockLe := ⟨fun a b => Int.le_total a.stock b.stock⟩

instance : IsTrans Producto stockLe :=
  ⟨fun _ _ _ h1 h2 => le_trans h1 h2⟩

/-- The `stock_critico` query of `generate_analytics`:
`SELECT nombre, stock, CASE … END FROM productos WHERE stock < 10 ORDER
BY stock ASC`. -/
def stock_critico (productos : List Producto) : List (String × Int × String) :=
  (List.insertionSort stockLe (productos.filter (fun p => p.stock < 10))).map
    (fun p => (p.nombre, p.stock, estadoStock p.stock))

/-- The join `ventas v JOIN productos p ON v.producto_id = p.id`:
each sale paired with its product; sales whose product id matches no
product row drop out. -/
def joinVentasProductos (productos : List Producto) (ventas : List Venta) :
    List (Venta × Producto) :=
  ventas.filterMap (fun v =>
    (productos.find? (fun p => p.id = v.producto_id)).map (fun p => (v, p)))

/-- Revenue of one day: `SUM(v.cantidad * p.precio)` over the joined
rows of that day (cents). -/
def ingresosDia (productos : List Producto) (ventas : List Venta)
    (dia : Nat) : Nat :=
  (((joinVentasProductos productos ventas).filter
      (fun r => r.1.fecha_venta = dia)).map
    (fun r => r.1.cantidad * r.2.precio)).sum

/-- Sales count of one day: `COUNT(*)` over the joined rows of that
day. -/
def totalVentasDia (productos : List Producto) (ventas : List Venta)
    (dia : Nat) : Nat :=
  ((joinVentasProductos productos ventas).filter
    (fun r => r.1.fecha_venta = dia)).length

/-- Query `ventas_por_dia` of `generate_analytics`:
group the join by `DATE(fecha_venta)`, report count and revenue per
day, `ORDER BY dia DESC LIMIT 7`. -/
def ventas_por_dia (productos : List Producto) (ventas : List Venta) :
    List (Nat × Nat × Nat) :=
  ((List.insertionSort (fun a b : Nat => b ≤ a)
      ((joinVentasProductos productos ventas).map
        (fun r => r.1.fecha_venta)).dedup).take 7).map
    (fun dia => (dia, totalVentasDia productos ventas dia,
      ingresosDia productos ventas dia))

/-! ### Sample data (`insert_sample_data` of inventory.py)

Prices in cents; ids are assigned 1.. by `RESTART IDENTITY`; sale rows
keep their list order and carry `(producto_id, cantidad, fecha)` with
the date encoded `yyyymmdd`. -/

/-- Dataset `productos_ejemplo`, with the ids `RESTART IDENTITY` assigns. -/
def productosEjemplo : List Producto :=
  [⟨1, "Laptop Gaming", 129999, 5⟩,
   ⟨2, "Monitor 24\x27", 19999, 15⟩,
   ⟨3, "Teclado Mecánico", 8999, 20⟩,
   ⟨4, "Mouse Gamer", 4999, 30⟩,
   ⟨5, "Auriculares RGB", 7999, 12⟩,
   ⟨6, "Webcam HD", 5999, 8⟩,
   ⟨7, "Mousepad XL", 1999, 25⟩,
   ⟨8, "Hub USB", 2999, 18⟩]

/-- Triples `(producto_id, cantidad, fecha)` of `ventas_ejemplo`. -/
def ventasEjemploRaw : List (Nat × Nat × Nat) :=
  [(1, 2, 20240101), (2, 3, 20240101), (3, 1, 20240102), (4, 2, 20240102),
   (5, 2, 20240103), (1, 1, 20240103), (2, 2, 20240104), (3, 3, 20240105),
   (1, 3, 20240201), (2, 2, 20240201), (4, 4, 20240202), (5, 1, 20240202),
   (3, 2, 20240203), (1, 1, 20240203), (2, 3, 20240204), (4, 2, 20240205),
   (1, 2, 20240301), (5, 3, 20240301), (2, 2, 20240302), (3, 4, 20240302),
   (4, 1, 20240303), (1, 2, 20240303), (5, 2, 20240304), (2, 1, 20240305),
   (1, 3, 20240315), (2, 2, 20240315), (3, 2, 20240316), (4, 3, 20240316),
   (5, 1, 20240317), (1, 2, 20240317), (2, 4, 20240318), (3, 1, 20240318),
   (4, 2, 20240319), (5, 3, 20240319), (1, 1, 20240320), (2, 2, 20240320),
   (3, 3, 20240321), (4, 4, 20240321), (5, 2, 20240322), (1, 3, 20240322),
   (2, 3, 20240323), (3, 2, 20240323), (4, 3, 20240324), (5, 4, 20240324),
   (1, 2, 20240325), (2, 3, 20240325)]

/-- Dataset `ventas_ejemplo` as rows of `ventas`, ids assigned 1.. in list
order. -/
def ventasEjemplo : List Venta :=
  (List.range ventasEjemploRaw.length).zipWith
    (fun i r => ⟨i + 1, r.1, r.2.1, r.2.2⟩) ventasEjemploRaw

/-- Handler `insert_sample_data` of inventory.py: inside one transaction,
`TRUNCATE … RESTART IDENTITY CASCADE` on `ventas` and `productos`, bulk
insert of the two literal datasets, then commit; on exception, no
commit and the error message. -/
def insert_sample_data (db : InvDB) (fail : Bool) : InvDB × List String :=
  let t := beginTxn db
  if fail then (abandon t, ["Error al insertar datos de ejemplo"])
  else
    let t := execOn t (fun _ =>
      { productos := productosEjemplo
        ventas := ventasEjemplo
        nextProductoId := productosEjemplo.length + 1
        nextVentaId := ventasEjemplo.length + 1 })
    let t := commitTxn t
    (t.committed, ["Datos de ejemplo insertados correctamente"])

/-! ### Menu loops -/

/-- What one menu iteration does with one input line. -/
inductive MenuStep
  | dispatch (handler : String)
  | invalid
  | exitLoop
  deriving DecidableEq, Repr

/-- The dispatch table of `main_menu()` of main.py; `"5"` is the exit
option. -/
def mainMenuStep (opcion : String) : MenuStep :=
  if opcion = "1" then .dispatch "create_tables"
  else if opcion = "2.1" then .dispatch "insert_curso"
  else if opcion = "2.2" then .dispatch "view_cursos"
  else if opcion = "3.1" then .dispatch "insert_data"
  else if opcion = "3.2" then .dispatch "fetch_data"
  else if opcion = "3.3" then .dispatch "update_data"
  else if opcion = "3.4" then .dispatch "delete_data"
  else if opcion = "4" then .dispatch "view_logs"
  else if opcion = "5" then .exitLoop
  else .invalid

/-- The dispatch table of `main_inventory_menu()` of inventory.py;
`"6"` is the exit option. -/
def inventoryMenuStep (opcion : String) : MenuStep :=
  if opcion = "1" then .dispatch "create_inventory_tables"
  else if opcion = "2" then .dispatch "insert_sample_data"
  else if opcion = "3.1" then .dispatch "insert_product"
  else if opcion = "3.2" then .dispatch "view_products"
  else if opcion = "4.1" then .dispatch "insert_sale"
  else if opcion = "4.2" then .dispatch "view_sales"
  else if opcion = "5.1" then .dispatch "generate_analytics"
  else if opcion = "5.2" then .dispatch "generate_advanced_analytics"
  else if opcion = "5.3" then .dispatch "generate_projections"
  else if opcion = "6" then .exitLoop
  else .invalid

/-- The `while True` menu loop, run on a finite stream of input lines:
a dispatched handler returns (its exceptions are caught inside it) and
the loop continues, an invalid option prints the error and the loop
continues, the exit option breaks out.  The result is `true` when the
loop terminated through its exit branch before exhausting the input. -/
def menuLoop (step : String → MenuStep) : List String → Bool
  | [] => false
  | opcion :: rest =>
    match step opcion with
    | .exitLoop => true
    | .dispatch _ => menuLoop step rest
    | .invalid => menuLoop step rest

/-! ### Helper lemmas -/

theorem log_operation_alumnos (db : SchoolDB) (lf : Bool)
    (o d : String) (det : Option String) :
    (log_operation db lf o d det).1.alumnos = db.alumnos := by
  cases lf <;> rfl

theorem log_operation_cursos (db : SchoolDB) (lf : Bool)
    (o d : String) (det : Option String) :
    (log_operation db lf o d det).1.cursos = db.cursos := by
  cases lf <;> rfl

theorem log_operation_log_extends (db : SchoolDB) (lf : Bool)
    (o d : String) (det : Option String) :
    ∃ tail, (log_operation db lf o d det).1.operaciones_log
      = db.operaciones_log ++ tail := by
  cases lf
  · exact ⟨[⟨o, d, "alumnos", det⟩], rfl⟩
  · exact ⟨[], (List.append_nil _).symm⟩

theorem hasTable_mono (s : List TableDef) (t : TableDef) (n : String)
    (h : hasTable s n = true) :
    hasTable (createTableIfNotExists s t) n = true := by
  unfold createTableIfNotExists
  split
  · exact h
  · unfold hasTable at h ⊢
    simpa using Or.inl (by simpa using h)

theorem hasTable_createTableIfNotExists_self (s : List TableDef) (t : TableDef) :
    hasTable (createTableIfNotExists s t) t.name = true := by
  unfold createTableIfNotExists hasTable
  split
  · assumption
  · simp

theorem createTableIfNotExists_of_hasTable (s : List TableDef) (t : TableDef)
    (h : hasTable s t.name = true) : createTableIfNotExists s t = s := by
  unfold createTableIfNotExists
  exact if_pos (by simpa [hasTable] using h)

theorem filter_ne_id_eq_erase (aid : Nat) :
    ∀ (l : List Alumno), l.Pairwise (fun x y => x.id ≠ y.id) →
    ∀ a ∈ l, a.id = aid →
      l.filter (fun b => ¬ b.id = aid) = l.erase a := by
  intro l
  induction l with
  | nil => intro _ a ha; exact absurd ha (List.not_mem_nil a)
  | cons b l ih =>
    intro hp a ha haid
    rcases List.pairwise_cons.mp hp with ⟨hb, hpl⟩
    rcases List.mem_cons.mp ha with rfl | hal
    · rw [List.filter_cons_of_neg (by simpa using haid),
        List.erase_cons_head]
      apply List.filter_eq_self.mpr
      intro c hc
      simpa using fun hcid => (hb c hc) (haid ▸ hcid).symm
    · have hbne : b.id ≠ aid := fun hbid => (hb a hal) (hbid.trans haid.symm)
      rw [List.filter_cons_of_pos (by simpa using hbne),
        List.erase_cons_tail, ih hpl a hal haid]
      simp only [beq_iff_eq]
      intro hba
      exact hbne (hba ▸ haid)

theorem mainMenuStep_exit_iff (o : String) :
    mainMenuStep o = .exitLoop ↔ o = "5" := by
  unfold mainMenuStep
  split_ifs with h1 h2 h3 h4 h5 h6 h7 h8 h9 <;> simp_all

theorem inventoryMenuStep_exit_iff (o : String) :
    inventoryMenuStep o = .exitLoop ↔ o = "6" := by
  unfold inventoryMenuStep
  split_ifs with h1 h2 h3 h4 h5 h6 h7 h8 h9 h10 <;> simp_all

theorem menuLoop_eq_true_iff (step : String → MenuStep) (exitOpt : String)
    (hstep : ∀ o, step o = .exitLoop ↔ o = exitOpt) :
    ∀ inputs, menuLoop step inputs = true ↔ exitOpt ∈ inputs := by
  intro inputs
  induction inputs with
  | nil => simp [menuLoop]
  | cons o rest ih =>
    rw [menuLoop]
    cases h : step o with
    | exitLoop =>
      simp [List.mem_cons, ((hstep o).mp h).symm]
    | dispatch hd =>
      have hne : exitOpt ≠ o := fun he => by
        rw [(hstep o).mpr he.symm] at h; exact MenuStep.noConfusion h
      simp [List.mem_cons, hne, ih]
    | invalid =>
      have hne : exitOpt ≠ o := fun he => by
        rw [(hstep o).mpr he.symm] at h; exact MenuStep.noConfusion h
      simp [List.mem_cons, hne, ih]

theorem menuLoop_resumes (step : String → MenuStep) (o : String)
    (rest : List String) (h : step o ≠ .exitLoop) :
    menuLoop step (o :: rest) = menuLoop step rest := by
  rw [menuLoop]
  cases hs : step o with
  | exitLoop => exact absurd hs h
  | dispatch hd => rfl
  | invalid => rfl

/-! ### Claim theorems -/

/-- Claim C1: every CRUD handler (`insert_data`, `fetch_data`,
`update_data`, `delete_data` of main.py and `insert_product` of
inventory.py) is atomic with respect to failure: when its statement
raises (oracle `true`), the transaction is never committed, so the
committed database state is returned unchanged and the handler reports
its error message; when it succeeds (oracle `false`), the transaction
is committed, i.e. the effect of the statement is published to the database
state and the success message is reported. -/
theorem crud_handlers_atomic :
    ∀ (db : SchoolDB) (inv : InvDB) (lf : Bool)
      (nombre email carrera nuevo : String) (aid : Nat)
      (precio : Nat) (stock : Int),
    insert_data db true lf nombre email carrera = (db, ["[INSERT - ERROR]"]) ∧
    ((insert_data db false lf nombre email carrera).1.alumnos
        = db.alumnos ++ [⟨db.nextAlumnoId, nombre, email, carrera⟩] ∧
      "[INSERT] Registro insertado con éxito."
        ∈ (insert_data db false lf nombre email carrera).2) ∧
    fetch_data db true lf = (db, ["[READ - ERROR]"]) ∧
    update_data db true lf aid nuevo = (db, ["[UPDATE - ERROR]"]) ∧
    (update_data db false lf aid nuevo).1.alumnos
      = db.alumnos.map (fun a =>
          if a.id = aid then { a with nombre := nuevo } else a) ∧
    delete_data db true lf aid = (db, ["[DELETE - ERROR]"]) ∧
    (delete_data db false lf aid).1.alumnos
      = db.alumnos.filter (fun a => ¬ a.id = aid) ∧
    insert_product inv true nombre precio stock = (inv, ["[INSERT - ERROR]"]) ∧
    (insert_product inv false nombre precio stock).1
      = { inv with
            productos :=
              inv.productos ++ [⟨inv.nextProductoId, nombre, precio, stock⟩]
            nextProductoId := inv.nextProductoId + 1 } := by
  intro db inv lf nombre email carrera nuevo aid precio stock
  refine ⟨rfl, ⟨?_, ?_⟩, rfl, rfl, ?_, rfl, ?_, rfl, rfl⟩
  · exact log_operation_alumnos _ lf _ _ _
  · cases lf <;> simp [insert_data, log_operation]
  · unfold update_data
    rw [if_neg Bool.false_ne_true]
    dsimp only
    split
    · exact log_operation_alumnos _ lf _ _ _
    · rfl
  · unfold delete_data
    rw [if_neg Bool.false_ne_true]
    dsimp only
    split
    · exact log_operation_alumnos _ lf _ _ _
    · rfl

/-- Claim C2: updating `alumnos` through an identifier matching no row
affects zero rows, prints the soft not-found message (no log entry, no
error) and returns every table of the database unchanged. -/
theorem update_nonexistent_id_noop :
    ∀ (db : SchoolDB) (lf : Bool) (aid : Nat) (nuevo : String),
    (∀ a ∈ db.alumnos, a.id ≠ aid) →
    db.alumnos.countP (fun a => a.id = aid) = 0 ∧
    update_data db false lf aid nuevo
      = (db, ["[UPDATE] No se encontró un alumno con ese ID."]) := by
  intro db lf aid nuevo h
  have hc : db.alumnos.countP (fun a => a.id = aid) = 0 :=
    List.countP_eq_zero.mpr (fun a ha => by simpa using h a ha)
  have hm : db.alumnos.map (fun a =>
      if a.id = aid then { a with nombre := nuevo } else a) = db.alumnos := by
    have := List.map_congr_left (l := db.alumnos)
      (f := fun a => if a.id = aid then { a with nombre := nuevo } else a)
      (g := id) (fun a ha => if_neg (h a ha))
    simpa using this
  refine ⟨hc, ?_⟩
  unfold update_data
  simp only [beginTxn, execOn, commitTxn, hc, hm]
  rfl

/-- Claim C3: deleting from `alumnos` through an identifier matching no
row affects zero rows and returns the database unchanged with the soft
not-found message; deleting through the identifier of an existing row
(ids being unique, as the PRIMARY KEY guarantees) removes exactly that
row from `alumnos`, leaves every other `alumnos` row and the `cursos`
table unchanged, only appends to the audit log, and reports success. -/
theorem delete_removes_exactly_matching_row :
    ∀ (db : SchoolDB) (lf : Bool) (aid : Nat),
    ((∀ a ∈ db.alumnos, a.id ≠ aid) →
      delete_data db false lf aid
        = (db, ["[DELETE] No se encontró un alumno con ese ID."])) ∧
    (∀ a, db.alumnos.Pairwise (fun x y => x.id ≠ y.id) →
      a ∈ db.alumnos → a.id = aid →
      (delete_data db false lf aid).1.alumnos = db.alumnos.erase a ∧
      (delete_data db false lf aid).1.cursos = db.cursos ∧
      (∃ tail, (delete_data db false lf aid).1.operaciones_log
        = db.operaciones_log ++ tail) ∧
      "[DELETE] Alumno eliminado correctamente."
        ∈ (delete_data db false lf aid).2) := by
  intro db lf aid
  constructor
  · intro h
    have hc : db.alumnos.countP (fun a => a.id = aid) = 0 :=
      List.countP_eq_zero.mpr (fun a ha => by simpa using h a ha)
    have hf : db.alumnos.filter (fun a => ¬ a.id = aid) = db.alumnos :=
      List.filter_eq_self.mpr (fun a ha => by simpa using h a ha)
    unfold delete_data
    simp only [beginTxn, execOn, commitTxn, hc, hf]
    rfl
  · intro a hpw ha haid
    have hc : 0 < db.alumnos.countP (fun a => a.id = aid) :=
      List.countP_pos_iff.mpr ⟨a, ha, by simpa using haid⟩
    have hf : db.alumnos.filter (fun b => ¬ b.id = aid) = db.alumnos.erase a :=
      filter_ne_id_eq_erase aid db.alumnos hpw a ha haid
    unfold delete_data
    rw [if_neg Bool.false_ne_true]
    dsimp only [beginTxn, execOn, commitTxn]
    rw [if_pos hc]
    refine ⟨by rw [log_operation_alumnos]; exact hf,
      log_operation_cursos _ lf _ _ _,
      log_operation_log_extends _ lf _ _ _, ?_⟩
    cases lf <;> simp [log_operation]

/-- Witness for C2: on a one-student database, updating id 2 (present:
only id 1) matches zero rows and returns the database unchanged with
the not-found message. -/
theorem update_nonexistent_id_noop_witness :
    update_data ⟨[⟨1, "Ana", "ana@mail", "Mate"⟩], [], [], 2⟩ false false 2 "Eva"
      = (⟨[⟨1, "Ana", "ana@mail", "Mate"⟩], [], [], 2⟩,
         ["[UPDATE] No se encontró un alumno con ese ID."]) :=
  (update_nonexistent_id_noop ⟨[⟨1, "Ana", "ana@mail", "Mate"⟩], [], [], 2⟩
    false 2 "Eva" (by decide)).2

/-- Witness for C3: deleting id 1 from a two-student database removes
exactly the row with id 1. -/
theorem delete_removes_exactly_matching_row_witness :
    (delete_data ⟨[⟨1, "Ana", "ana@mail", "Mate"⟩, ⟨2, "Eva", "eva@mail", "Bio"⟩],
        [], [], 3⟩ false false 1).1.alumnos
      = [⟨2, "Eva", "eva@mail", "Bio"⟩] :=
  Eq.trans
    ((delete_removes_exactly_matching_row
        ⟨[⟨1, "Ana", "ana@mail", "Mate"⟩, ⟨2, "Eva", "eva@mail", "Bio"⟩], [], [], 3⟩
        false 1).2 ⟨1, "Ana", "ana@mail", "Mate"⟩
        (by simp) (by simp) rfl).1
    (by decide)

/-- Claim C4: schema creation is idempotent.  Running `create_tables`
(main.py) or `create_inventory_tables` (inventory.py) twice yields
exactly the schema of running it once, and running either on a schema
that already has its tables changes nothing — `CREATE TABLE IF NOT
EXISTS` leaves the definition of an existing table untouched. -/
theorem create_tables_idempotent :
    ∀ (s : List TableDef),
    create_tables (create_tables s) = create_tables s ∧
    create_inventory_tables (create_inventory_tables s)
      = create_inventory_tables s ∧
    (hasTable s "cursos" = true → hasTable s "alumnos" = true →
      hasTable s "operaciones_log" = true → create_tables s = s) ∧
    (hasTable s "productos" = true → hasTable s "ventas" = true →
      create_inventory_tables s = s) := by
  have hfix : ∀ (s : List TableDef), hasTable s "cursos" = true →
      hasTable s "alumnos" = true → hasTable s "operaciones_log" = true →
      create_tables s = s := by
    intro s h1 h2 h3
    unfold create_tables
    rw [createTableIfNotExists_of_hasTable s cursosTable h1,
      createTableIfNotExists_of_hasTable s alumnosTable h2,
      createTableIfNotExists_of_hasTable s operacionesLogTable h3]
  have hinvfix : ∀ (s : List TableDef), hasTable s "productos" = true →
      hasTable s "ventas" = true → create_inventory_tables s = s := by
    intro s h1 h2
    unfold create_inventory_tables
    rw [createTableIfNotExists_of_hasTable s productosTable h1,
      createTableIfNotExists_of_hasTable s ventasTable h2]
  intro s
  refine ⟨?_, ?_, hfix s, hinvfix s⟩
  · apply hfix
    · exact hasTable_mono _ _ _ (hasTable_mono _ _ _
        (hasTable_createTableIfNotExists_self s cursosTable))
    · exact hasTable_mono _ _ _
        (hasTable_createTableIfNotExists_self _ alumnosTable)
    · exact hasTable_createTableIfNotExists_self _ operacionesLogTable
  · apply hinvfix
    · exact hasTable_mono _ _ _
        (hasTable_createTableIfNotExists_self s productosTable)
    · exact hasTable_createTableIfNotExists_self _ ventasTable

/-- Witness for C4: a schema that already holds the three tables of
main.py is left exactly unchanged by `create_tables`. -/
theorem create_tables_idempotent_witness :
    create_tables [cursosTable, alumnosTable, operacionesLogTable]
      = [cursosTable, alumnosTable, operacionesLogTable] :=
  (create_tables_idempotent [cursosTable, alumnosTable, operacionesLogTable]).2.2.1
    (by decide) (by decide) (by decide)

/-- Claim C5: the stock-depletion projection of `generate_projections`
computes days remaining as stock divided by the estimated daily
sell-through `total_vendido / total_dias`, and both divisions are
guarded by `NULLIF`: a zero divisor (no recorded sale days, or a zero
daily rate) makes the projection NULL instead of raising a
division-by-zero error. -/
theorem projection_division_guarded :
    ∀ (stock total_vendido total_dias : Int),
    (total_dias = 0 →
      dias_restantes_stock stock total_vendido total_dias = none) ∧
    (pgDiv total_vendido total_dias = 0 →
      dias_restantes_stock stock total_vendido total_dias = none) ∧
    (total_dias ≠ 0 → pgDiv total_vendido total_dias ≠ 0 →
      dias_restantes_stock stock total_vendido total_dias
        = some (pgDiv stock (pgDiv total_vendido total_dias))) := by
  intro stock tv td
  refine ⟨?_, ?_, ?_⟩
  · intro h
    simp [dias_restantes_stock, ventasPorDiaRate, nullif, h]
  · intro h
    by_cases htd : td = 0
    · simp [dias_restantes_stock, ventasPorDiaRate, nullif, htd]
    · simp [dias_restantes_stock, ventasPorDiaRate, nullif, htd, h]
  · intro htd hrate
    simp [dias_restantes_stock, ventasPorDiaRate, nullif, htd, hrate]

/-- Witness for C5: with the 26 distinct sale days of the sample dataset and
a product that sold nothing the daily rate is zero, and the projection
is NULL; with stock 20 sold 52 over 26 days it is `some 10`. -/
theorem projection_division_guarded_witness :
    dias_restantes_stock 5 0 26 = none ∧
    dias_restantes_stock 5 46 0 = none ∧
    dias_restantes_stock 20 52 26 = some 10 := by
  refine ⟨(projection_division_guarded 5 0 26).2.1 (by decide),
    (projection_division_guarded 5 46 0).1 rfl, ?_⟩
  have h := (projection_division_guarded 20 52 26).2.2
    (by decide) (by decide)
  rw [h]
  decide

/-- Claim C6: the `stock_critico` report of `generate_analytics` lists
exactly the products with stock below 10 (each exactly once, those with
stock 10 or more excluded), in ascending stock order, and its CASE
expression puts each listed stock value in exactly one bucket:
`Sin stock` iff the stock is 0, `Crítico` iff it is nonzero and below
5, `Bajo` iff it is at least 5 and below 10. -/
theorem stock_critico_buckets :
    ∀ (productos : List Producto),
    (stock_critico productos).Perm
      ((productos.filter (fun p => p.stock < 10)).map
        (fun p => (p.nombre, p.stock, estadoStock p.stock))) ∧
    (stock_critico productos).Pairwise (fun a b => a.2.1 ≤ b.2.1) ∧
    (∀ s : Int, s < 10 →
      ((estadoStock s = "❌ Sin stock" ↔ s = 0) ∧
       (estadoStock s = "⚠️ Crítico" ↔ (s ≠ 0 ∧ s < 5)) ∧
       (estadoStock s = "📊 Bajo" ↔ (¬ s < 5 ∧ s < 10)))) := by
  intro productos
  refine ⟨?_, ?_, ?_⟩
  · exact List.Perm.map _
      (List.perm_insertionSort stockLe (productos.filter (fun p => p.stock < 10)))
  · have hs := List.sorted_insertionSort stockLe
      (productos.filter (fun p => p.stock < 10))
    exact List.Pairwise.map _ (fun a b hab => hab) hs
  · intro s hs10
    by_cases h0 : s = 0
    · refine ⟨by simp [estadoStock, h0], ?_, ?_⟩
      · rw [estadoStock, if_pos h0]
        constructor
        · intro h; exact absurd h (by decide)
        · rintro ⟨h, _⟩; exact absurd h0 h
      · rw [estadoStock, if_pos h0]
        constructor
        · intro h; exact absurd h (by decide)
        · rintro ⟨h, _⟩; exact absurd (by omega : s < 5) h
    · by_cases h5 : s < 5
      · rw [estadoStock, if_neg h0, if_pos h5]
        refine ⟨⟨fun h => absurd h (by decide), fun h => absurd h h0⟩,
          ⟨fun _ => ⟨h0, h5⟩, fun _ => rfl⟩,
          ⟨fun h => absurd h (by decide), fun h => absurd h5 h.1⟩⟩
      · rw [estadoStock, if_neg h0, if_neg h5, if_pos hs10]
        refine ⟨⟨fun h => absurd h (by decide), fun h => absurd h h0⟩,
          ⟨fun h => absurd h (by decide), fun h => absurd h.2 h5⟩,
          ⟨fun _ => ⟨h5, hs10⟩, fun _ => rfl⟩⟩

/-- Witness for C6: on the sample catalogue only the Laptop (stock 5)
and the Webcam (stock 8) fall below 10; stock 5 is bucketed `Bajo`. -/
theorem stock_critico_buckets_witness :
    estadoStock 5 = "📊 Bajo" :=
  ((stock_critico_buckets productosEjemplo).2.2 5 (by decide)).2.2.mpr
    ⟨by decide, by decide⟩

/-- Counterexample to claim C7 as stated: after the sample-data loader
runs, the `ventas_por_dia` report of `generate_analytics` keeps only
the 7 most recent days (`ORDER BY dia DESC LIMIT 7`), which for this
dataset are 2024-03-19 through 2024-03-25 — so no revenue at all is
reported for the example day 2024-01-01 of the claim. -/
theorem ventas_por_dia_omits_20240101 :
    (ventas_por_dia (insert_sample_data ⟨[], [], 1, 1⟩ false).1.productos
        (insert_sample_data ⟨[], [], 1, 1⟩ false).1.ventas).map
      (fun r => r.1)
      = [20240325, 20240324, 20240323, 20240322, 20240321, 20240320,
         20240319] ∧
    ¬ ∃ r ∈ ventas_por_dia
        (insert_sample_data ⟨[], [], 1, 1⟩ false).1.productos
        (insert_sample_data ⟨[], [], 1, 1⟩ false).1.ventas,
      r.1 = 20240101 := by
  constructor
  · decide
  · decide

/-- Claim C7, amended: after the sample-data loader runs, every row the
`ventas_por_dia` aggregate reports carries exactly the literal sum of
quantity times price over the inserted sales rows of that day; only the 7
most recent days appear, so 2024-01-01 is not among the reported rows,
although the same per-day sum evaluated at 2024-01-01 is still exactly
2 × 1299.99 + 3 × 199.99 (in cents). -/
theorem ventas_por_dia_sample_revenue :
    ∀ (inv : InvDB),
    (∀ r ∈ ventas_por_dia (insert_sample_data inv false).1.productos
        (insert_sample_data inv false).1.ventas,
      r.2.2 = ingresosDia productosEjemplo ventasEjemplo r.1 ∧
      r.2.1 = totalVentasDia productosEjemplo ventasEjemplo r.1) ∧
    ingresosDia productosEjemplo ventasEjemplo 20240101
      = 2 * 129999 + 3 * 19999 := by
  intro inv
  have h1 : (insert_sample_data inv false).1.productos = productosEjemplo := rfl
  have h2 : (insert_sample_data inv false).1.ventas = ventasEjemplo := rfl
  rw [h1, h2]
  constructor
  · decide
  · decide

/-- Witness for C7 (amended): the most recent reported day, 2024-03-25,
carries revenue 3199.95 (2 Laptops and 3 Monitors were sold that day),
equal to the per-day sum of quantity times price. -/
theorem ventas_por_dia_sample_revenue_witness :
    (319995 : Nat) = ingresosDia productosEjemplo ventasEjemplo 20240325 :=
  (((ventas_por_dia_sample_revenue ⟨[], [], 1, 1⟩).1
    (20240325, 2, 319995) (by decide)).1)

/-- Claim C8: for every finite sequence of input lines, the menu loop
of main.py breaks out exactly when the designated exit option (`"5"`;
`"6"` for inventory.py) is entered; any other line either dispatches to
its handler or falls to the invalid-option message, and in both cases
the loop resumes with the next line, so no handler outcome terminates
the loop. -/
theorem menu_loop_exits_only_on_exit_option :
    ∀ (inputs : List String),
    (menuLoop mainMenuStep inputs = true ↔ "5" ∈ inputs) ∧
    (menuLoop inventoryMenuStep inputs = true ↔ "6" ∈ inputs) ∧
    (∀ (opcion : String) (rest : List String),
      mainMenuStep opcion ≠ .exitLoop →
      menuLoop mainMenuStep (opcion :: rest) = menuLoop mainMenuStep rest) ∧
    (∀ (opcion : String) (rest : List String),
      inventoryMenuStep opcion ≠ .exitLoop →
      menuLoop inventoryMenuStep (opcion :: rest)
        = menuLoop inventoryMenuStep rest) := by
  intro inputs
  exact ⟨menuLoop_eq_true_iff mainMenuStep "5" mainMenuStep_exit_iff inputs,
    menuLoop_eq_true_iff inventoryMenuStep "6" inventoryMenuStep_exit_iff inputs,
    fun o rest h => menuLoop_resumes mainMenuStep o rest h,
    fun o rest h => menuLoop_resumes inventoryMenuStep o rest h⟩

/-- Witness for C8: a handler option and an unknown option both let the
main menu loop continue to the exit line, and the inventory loop
terminates on a stream that reaches its exit option `"6"`. -/
theorem menu_loop_exits_only_on_exit_option_witness :
    menuLoop mainMenuStep ["3.1", "5"] = menuLoop mainMenuStep ["5"] ∧
    menuLoop mainMenuStep ["99", "5"] = menuLoop mainMenuStep ["5"] ∧
    menuLoop inventoryMenuStep ["99", "4.1", "6"] = true :=
  ⟨(menu_loop_exits_only_on_exit_option []).2.2.1 "3.1" ["5"] (by decide),
   (menu_loop_exits_only_on_exit_option []).2.2.1 "99" ["5"] (by decide),
   ((menu_loop_exits_only_on_exit_option ["99", "4.1", "6"]).2.1).mpr
     (by decide)⟩

/-- Claim C9: `insert_sale` of inventory.py writes only to the `ventas`
table: the `productos` table of the resulting state is always exactly
the input one (so the stock of the sold product is not decremented), and
`ventas` is either unchanged (failure, including a foreign-key
violation) or extended by exactly the one new sale row. -/
theorem insert_sale_touches_only_ventas :
    ∀ (inv : InvDB) (fail : Bool) (producto_id cantidad now : Nat),
    (insert_sale inv fail producto_id cantidad now).1.productos
      = inv.productos ∧
    ((insert_sale inv fail producto_id cantidad now).1.ventas = inv.ventas ∨
      (insert_sale inv fail producto_id cantidad now).1.ventas
        = inv.ventas ++ [⟨inv.nextVentaId, producto_id, cantidad, now⟩]) ∧
    (fail = false →
      inv.productos.any (fun p => p.id = producto_id) = true →
      (insert_sale inv fail producto_id cantidad now).1.ventas
        = inv.ventas ++ [⟨inv.nextVentaId, producto_id, cantidad, now⟩]) := by
  intro inv fail pid cantidad now
  cases fail
  · by_cases h : inv.productos.any (fun p => p.id = pid) = true
    · refine ⟨?_, Or.inr ?_, fun _ _ => ?_⟩ <;>
        simp [insert_sale, beginTxn, execOn, commitTxn, abandon, h]
    · refine ⟨?_, Or.inl ?_, fun _ hany => absurd hany h⟩ <;>
        simp [insert_sale, beginTxn, execOn, commitTxn, abandon, h]
  · exact ⟨rfl, Or.inl rfl, fun hf _ => Bool.noConfusion hf⟩

/-- Witness for C9: selling product 1 of the sample catalogue appends
one `ventas` row and leaves `productos` (hence every stock) as it
was. -/
theorem insert_sale_touches_only_ventas_witness :
    (insert_sale ⟨productosEjemplo, [], 9, 1⟩ false 1 2 20240401).1.productos
      = productosEjemplo ∧
    (insert_sale ⟨productosEjemplo, [], 9, 1⟩ false 1 2 20240401).1.ventas
      = [⟨1, 1, 2, 20240401⟩] :=
  ⟨(insert_sale_touches_only_ventas ⟨productosEjemplo, [], 9, 1⟩
      false 1 2 20240401).1,
   (insert_sale_touches_only_ventas ⟨productosEjemplo, [], 9, 1⟩
      false 1 2 20240401).2.2 rfl (by decide)⟩

/-- Claim C10: `log_operation` of main.py catches the failure of its
own INSERT internally — a failing audit-log write returns the database
unchanged with only the console warning, raising nothing — and because
the surrounding handler calls it after its own commit, the CRUD
operation still completes and still reports success: here `insert_data`
with a failing log still publishes the new row and still prints its
success message. -/
theorem log_operation_never_raises :
    ∀ (db : SchoolDB) (op descripcion : String) (det : Option String)
      (nombre email carrera : String),
    log_operation db true op descripcion det = (db, ["[LOG - ERROR]"]) ∧
    (insert_data db false true nombre email carrera).1.alumnos
      = db.alumnos ++ [⟨db.nextAlumnoId, nombre, email, carrera⟩] ∧
    "[INSERT] Registro insertado con éxito."
      ∈ (insert_data db false true nombre email carrera).2 := by
  intro db op descripcion det nombre email carrera
  refine ⟨rfl, rfl, ?_⟩
  simp [insert_data, log_operation]
